import Mathlib

/-!
Shallow embedding of the gridstatus-mcp backend core:
TTL cache (`services/cache.py`), source adapter (`services/grid_data.py`),
highlight engine (`routes/market.py`), baseline store and anomaly scorer
(`services/baselines.py`).

Python floats are modelled as exact rationals (reals where the code uses
transcendental functions: `math.erf`, `math.sqrt`, pandas `.std()`);
`round(x, n)` is modelled as round-half-to-even on the scaled value, which
is the rounding mode Python uses. Wall-clock time is an explicit rational
parameter; the mutable cache dictionary is an explicit store value threaded
through each operation.
-/

namespace GridStatus

/-- Python `round` ties-to-even, on the integer grid: embeds the rounding
mode of `round(x)` and `f-string` `:.0f` formatting. -/
def roundHE {K : Type} [LinearOrderedField K] [FloorRing K] (x : K) : ℤ :=
  if Int.fract x < 1/2 then ⌊x⌋
  else if 1/2 < Int.fract x then ⌊x⌋ + 1
  else if ⌊x⌋ % 2 = 0 then ⌊x⌋ else ⌊x⌋ + 1

/-- Python `round(x, 1)` on exact rationals. -/
def round1 (q : ℚ) : ℚ := (roundHE (q * 10) : ℚ) / 10

/-- Python `round(x, 2)` on exact rationals. -/
def round2 (q : ℚ) : ℚ := (roundHE (q * 100) : ℚ) / 100

/-- Python `round(x, 2)` where the value is real (pandas mean/std). -/
noncomputable def round2R (x : ℝ) : ℝ := (roundHE (x * 100) : ℝ) / 100

/-! ### TTLCache (`services/cache.py`) -/

/-- The `TTLCache._store` dictionary: key to `(expires_at, value)`. -/
def TTLStore (V : Type) : Type := String → Option (ℚ × V)

/-- The empty cache (`TTLCache.__init__`). -/
def emptyStore (V : Type) : TTLStore V := fun _ => none

/-- `TTLCache.get`: returns the value if present and `now < expires_at`;
deletes the entry and returns `None` when present but expired; returns
`None` on absent keys.  The (possibly shrunk) store is returned alongside. -/
def cacheGet {V : Type} (s : TTLStore V) (now : ℚ) (key : String) :
    Option V × TTLStore V :=
  match s key with
  | some (expires_at, value) =>
      if now < expires_at then (some value, s)
      else (none, fun k => if k = key then none else s k)
  | none => (none, s)

/-- `TTLCache.set`: unconditionally overwrites, expiry `now + ttl`. -/
def cacheSet {V : Type} (s : TTLStore V) (now : ℚ) (key : String) (value : V)
    (ttl_seconds : ℚ) : TTLStore V :=
  fun k => if k = key then some (now + ttl_seconds, value) else s k

/-! ### Source adapter (`services/grid_data.py`) -/

/-- Failure modes surfaced by the adapter: `_get_iso` raising on an
unsupported identifier, and the empty-result `ValueError`s, which the spec
taxonomy names `UnsupportedISO` and `DataUnavailable`. -/
inductive FetchError : Type
  | unsupportedISO (iso : String)
  | dataUnavailable (msg : String)
deriving DecidableEq, Repr

/-- Python `str.upper()` on one ASCII character. -/
def pyUpperChar (c : Char) : Char :=
  if 'a' ≤ c ∧ c ≤ 'z' then Char.ofNat (c.toNat - 32) else c

/-- Python `str.upper()` (ASCII identifiers only are ever passed). -/
def pyUpper (s : String) : String := String.mk (s.data.map pyUpperChar)

/-- `_get_iso` succeeds exactly on identifiers whose upper-casing is a key
of the `_isos` table, which holds only `CAISO`. -/
def isoSupported (iso : String) : Bool := pyUpper iso == "CAISO"

/-- One row of the provider fuel-mix table, restricted to the fields the
code reads: `Interval Start` plus the generation columns (MW as `int`). -/
structure FuelRow : Type where
  intervalStart : String
  sources : List (String × ℤ)
deriving DecidableEq, Repr

/-- The dict built by `get_fuel_mix`. -/
structure FuelMix : Type where
  timestamp : String
  sources : List (String × ℤ)
deriving DecidableEq, Repr

/-- `get_fuel_mix`: cache lookup, ISO validation, empty-result failure,
normalization from the first row, cache write with a 60 s TTL. -/
def get_fuel_mix (s : TTLStore FuelMix) (now : ℚ) (iso : String)
    (rows : List FuelRow) : Except FetchError (FuelMix × TTLStore FuelMix) :=
  match cacheGet s now ("fuel_mix:" ++ iso) with
  | (some cached, s1) => .ok (cached, s1)
  | (none, s1) =>
    if isoSupported iso then
      match rows with
      | [] => .error (.dataUnavailable ("No fuel mix data returned from " ++ iso))
      | row :: _ =>
        let result : FuelMix := ⟨row.intervalStart, row.sources⟩
        .ok (result, cacheSet s1 now ("fuel_mix:" ++ iso) result 60)
    else .error (.unsupportedISO iso)

/-- One row of the provider load table: `Interval Start` and `Load`. -/
structure LoadRow : Type where
  intervalStart : String
  load : ℤ
deriving DecidableEq, Repr

/-- The dict built by `get_load`. -/
structure LoadSnapshot : Type where
  timestamp : String
  current_mw : ℤ
deriving DecidableEq, Repr

/-- `get_load`: same shape as `get_fuel_mix`. -/
def get_load (s : TTLStore LoadSnapshot) (now : ℚ) (iso : String)
    (rows : List LoadRow) :
    Except FetchError (LoadSnapshot × TTLStore LoadSnapshot) :=
  match cacheGet s now ("load:" ++ iso) with
  | (some cached, s1) => .ok (cached, s1)
  | (none, s1) =>
    if isoSupported iso then
      match rows with
      | [] => .error (.dataUnavailable ("No load data returned from " ++ iso))
      | row :: _ =>
        let result : LoadSnapshot := ⟨row.intervalStart, row.load⟩
        .ok (result, cacheSet s1 now ("load:" ++ iso) result 60)
    else .error (.unsupportedISO iso)

/-- One row of the provider LMP table, restricted to the fields read:
`Location`, `LMP`, `Interval Start`. -/
structure PriceRow : Type where
  location : String
  lmp : ℚ
  intervalStart : String
deriving DecidableEq, Repr

/-- The dict built by `get_prices`. `timestamp` is `None` on an empty
table, hence `Option`. -/
structure PriceSnapshot : Type where
  timestamp : Option String
  average_lmp : ℚ
  by_hub : List (String × ℚ)
  unit : String
deriving DecidableEq, Repr

/-- Python dict assignment `by_hub[loc] = v`: overwrite in place if the key
exists, else append (insertion order preserved). -/
def dictInsert (m : List (String × ℚ)) (loc : String) (v : ℚ) :
    List (String × ℚ) :=
  if m.any (fun e => e.1 == loc) then
    m.map (fun e => if e.1 == loc then (loc, v) else e)
  else m ++ [(loc, v)]

/-- `get_prices`: builds `by_hub` row by row (hub prices rounded to
2 decimals), averages, and caches.  Note there is NO empty-result check:
an empty table yields `timestamp = None`, `average_lmp = 0.0`, empty
`by_hub`, and this placeholder is cached like any other result. -/
def get_prices (s : TTLStore PriceSnapshot) (now : ℚ) (iso : String)
    (rows : List PriceRow) :
    Except FetchError (PriceSnapshot × TTLStore PriceSnapshot) :=
  match cacheGet s now ("prices:" ++ iso) with
  | (some cached, s1) => .ok (cached, s1)
  | (none, s1) =>
    if isoSupported iso then
      let by_hub := rows.foldl (fun m row => dictInsert m row.location (round2 row.lmp)) []
      let avg : ℚ :=
        if by_hub.isEmpty then 0
        else round2 ((by_hub.map (fun e => e.2)).sum / by_hub.length)
      let timestamp := rows.head?.map (fun r => r.intervalStart)
      let result : PriceSnapshot := ⟨timestamp, avg, by_hub, "$/MWh"⟩
      .ok (result, cacheSet s1 now ("prices:" ++ iso) result 60)
    else .error (.unsupportedISO iso)

/-- The dict built by `get_status`; `status = "unavailable"` with `None`
reserves and time is the degraded placeholder. -/
structure StatusSnapshot : Type where
  status : String
  reserves : Option String
  time : Option String
deriving DecidableEq, Repr

/-- The degraded result built in the `except` branch of `get_status`. -/
def statusPlaceholder : StatusSnapshot := ⟨"unavailable", none, none⟩

/-- The object returned by a successful provider `get_status` call. -/
structure StatusRaw : Type where
  status : String
  reserves : Option String
  time : String
deriving DecidableEq, Repr

/-- `get_status`: cache lookup, ISO validation, then a provider call whose
failure (`provider = none`) degrades to the placeholder instead of
raising; either result is cached with a 60 s TTL.  The `Bool` records
whether the provider was consulted. -/
def get_status (s : TTLStore StatusSnapshot) (now : ℚ) (iso : String)
    (provider : Option StatusRaw) :
    Except FetchError (StatusSnapshot × Bool × TTLStore StatusSnapshot) :=
  match cacheGet s now ("status:" ++ iso) with
  | (some cached, s1) => .ok (cached, false, s1)
  | (none, s1) =>
    if isoSupported iso then
      let result : StatusSnapshot :=
        match provider with
        | some raw => ⟨raw.status, raw.reserves, some raw.time⟩
        | none => statusPlaceholder
      .ok (result, true, cacheSet s1 now ("status:" ++ iso) result 60)
    else .error (.unsupportedISO iso)

/-! ### Highlight engine (`routes/market.py`, `_generate_highlights`) -/

/-- f-string `:.0f`: round ties-to-even to an integer and print it. -/
def fmt0 (q : ℚ) : String := toString (roundHE q)

/-- Two-digit zero-padded rendering of a remainder below 100. -/
def pad2 (r : ℕ) : String := if r < 10 then "0" ++ toString r else toString r

/-- f-string `:.2f`: round ties-to-even to 2 decimals and print with
exactly two fractional digits. -/
def fmt2 (q : ℚ) : String :=
  let n := roundHE (q * 100)
  (if n < 0 then "-" else "") ++ toString (n.natAbs / 100) ++ "." ++ pad2 (n.natAbs % 100)

/-- Insert a comma after every third digit of a reversed digit list. -/
def commaRev : List Char → List Char
  | c1 :: c2 :: c3 :: c4 :: rest => c1 :: c2 :: c3 :: ',' :: commaRev (c4 :: rest)
  | l => l

/-- f-string `:,` on an `int`: thousands separators. -/
def fmtComma (z : ℤ) : String :=
  (if z < 0 then "-" else "") ++ String.mk (commaRev (toString z.natAbs).data.reverse).reverse

/-- `sources.get(name, 0)`. -/
def getSource (sources : List (String × ℤ)) (name : String) : ℤ :=
  ((sources.find? (fun e => e.1 == name)).map (fun e => e.2)).getD 0

/-- `sum(v for v in sources.values() if v > 0)`. -/
def totalGen (sources : List (String × ℤ)) : ℤ :=
  ((sources.map (fun e => e.2)).filter (fun v => 0 < v)).sum

def solarDominantMsg (pct : ℚ) (mw : ℤ) : String :=
  "Solar dominant at " ++ fmt0 pct ++ "% of generation (" ++ fmtComma mw ++ " MW)"

def minimalSolarMsg (pct : ℚ) : String :=
  "Minimal solar generation (" ++ fmt0 pct ++ "%)"

def batteriesChargingMsg (mw : ℤ) : String :=
  "Batteries charging at " ++ fmtComma mw ++ " MW (absorbing excess generation)"

def batteriesDischargingMsg (mw : ℤ) : String :=
  "Batteries discharging " ++ fmtComma mw ++ " MW (supporting evening demand)"

def lowWindMsg (pct : ℚ) (mw : ℤ) : String :=
  "Low wind generation at " ++ fmt0 pct ++ "% (" ++ fmtComma mw ++ " MW)"

def strongWindMsg (pct : ℚ) (mw : ℤ) : String :=
  "Strong wind at " ++ fmt0 pct ++ "% of generation (" ++ fmtComma mw ++ " MW)"

def heavyGasMsg (pct : ℚ) (mw : ℤ) : String :=
  "Heavy gas reliance at " ++ fmt0 pct ++ "% (" ++ fmtComma mw ++ " MW)"

def elevatedPricesMsg (p : ℚ) : String :=
  "Elevated prices at $" ++ fmt2 p ++ "/MWh"

def negativePricesMsg (p : ℚ) : String :=
  "Negative prices at $" ++ fmt2 p ++ "/MWh (oversupply)"

/-- The solar rule: zero-or-one highlight. -/
def solarPart (sources : List (String × ℤ)) (total : ℤ) : List String :=
  let solar := getSource sources "Solar"
  if 0 < solar ∧ 0 < total then
    let pct : ℚ := (solar : ℚ) / (total : ℚ) * 100
    if 30 < pct then [solarDominantMsg pct solar]
    else if pct < 5 then [minimalSolarMsg pct]
    else []
  else []

/-- The battery rule: zero-or-one highlight. -/
def batteryPart (sources : List (String × ℤ)) : List String :=
  let batteries := getSource sources "Batteries"
  if batteries < -1000 then [batteriesChargingMsg batteries]
  else if 1000 < batteries then [batteriesDischargingMsg batteries]
  else []

/-- The wind rule: zero-or-one highlight; note the `wind > 0` guard. -/
def windPart (sources : List (String × ℤ)) (total : ℤ) : List String :=
  let wind := getSource sources "Wind"
  if 0 < wind ∧ 0 < total then
    let pct : ℚ := (wind : ℚ) / (total : ℚ) * 100
    if pct < 5 then [lowWindMsg pct wind]
    else if 20 < pct then [strongWindMsg pct wind]
    else []
  else []

/-- The gas rule: zero-or-one highlight. -/
def gasPart (sources : List (String × ℤ)) (total : ℤ) : List String :=
  let gas := getSource sources "Natural Gas"
  if 0 < gas ∧ 0 < total then
    let pct : ℚ := (gas : ℚ) / (total : ℚ) * 100
    if 40 < pct then [heavyGasMsg pct gas]
    else []
  else []

/-- The price rule: zero-or-one highlight. -/
def pricePart (avg_price : ℚ) : List String :=
  if 80 < avg_price then [elevatedPricesMsg avg_price]
  else if avg_price < 0 then [negativePricesMsg avg_price]
  else []

/-- `_generate_highlights(fuel_mix, load, prices)`: total generation from
strictly positive sources, short-circuit on zero, then the five rules in
order, each appending zero or one highlight, with a default when none
fired.  The `load` argument is accepted but never read, as in the code. -/
def generate_highlights (fuel_mix : FuelMix) (_load : LoadSnapshot)
    (prices : PriceSnapshot) : List String :=
  let sources := fuel_mix.sources
  let total := totalGen sources
  if total = 0 then ["Generation data unavailable"]
  else
    let hl := solarPart sources total ++ batteryPart sources ++
      windPart sources total ++ gasPart sources total ++
      pricePart prices.average_lmp
    if hl.isEmpty then ["Grid operating within normal parameters"] else hl

/-! ### Baseline store and anomaly scorer (`services/baselines.py`) -/

/-- The dict returned by `get_hourly_baseline`. -/
structure HourlyBaseline : Type where
  mean : ℚ
  std : ℚ
  description : String
deriving DecidableEq, Repr

/-- `CAISO_HOURLY_BASELINES` as an association list hour ↦ (mean, std). -/
def CAISO_HOURLY_BASELINES : List (ℕ × ℚ × ℚ) :=
  [(0, 22.5, 12.3), (1, 19.8, 10.1), (2, 18.2, 9.5), (3, 17.5, 8.8),
   (4, 18.9, 9.2), (5, 22.1, 11.5), (6, 28.4, 14.2), (7, 32.7, 15.8),
   (8, 30.1, 16.5), (9, 25.3, 14.0), (10, 20.8, 12.8), (11, 18.5, 11.2),
   (12, 16.2, 10.5), (13, 15.8, 10.0), (14, 17.3, 11.5), (15, 22.6, 14.8),
   (16, 32.5, 18.2), (17, 45.8, 22.5), (18, 52.3, 25.0), (19, 48.7, 23.5),
   (20, 42.1, 20.8), (21, 35.6, 17.5), (22, 28.9, 14.2), (23, 24.3, 12.8)]

/-- `get_hourly_baseline(iso, hour)`: CAISO table lookup with the
`{mean: 30.0, std: 15.0}` default; non-CAISO identifiers get the default
with a different description. -/
def get_hourly_baseline (iso : String) (hour : ℕ) : HourlyBaseline :=
  if pyUpper iso == "CAISO" then
    let b := ((CAISO_HOURLY_BASELINES.find? (fun e => e.1 == hour)).map
      (fun e => e.2)).getD (30, 15)
    ⟨b.1, b.2, "Typical for hour " ++ toString hour ++ ":00 (CAISO Jan 2026)"⟩
  else ⟨30, 15, "Default baseline"⟩

/-- The dict returned by `compute_rolling_baseline`; mean and std are
pandas float results, so real-valued here. -/
structure RollingBaseline : Type where
  mean : ℝ
  std : ℝ
  sample_size : ℕ
  description : String

/-- pandas `Series.mean()`. -/
noncomputable def sampleMean (l : List ℝ) : ℝ := l.sum / l.length

/-- pandas `Series.std()` (ddof = 1): square root of the sum of squared
deviations over `n - 1`. -/
noncomputable def sampleStd (l : List ℝ) : ℝ :=
  Real.sqrt ((l.map (fun x => (x - sampleMean l) ^ 2)).sum / ((l.length : ℝ) - 1))

/-- `compute_rolling_baseline(iso, days)` given the fetched LMP column:
`none` models a failed fetch, row entries are `none` where `dropna` would
drop them.  Returns `None` on a missing or empty frame or fewer than 10
valid samples, else mean/std rounded to 2 decimals plus the count. -/
noncomputable def compute_rolling_baseline (days : ℕ)
    (df : Option (List (Option ℝ))) : Option RollingBaseline :=
  match df with
  | none => none
  | some rows =>
    if rows.isEmpty then none
    else
      let lmp_values := rows.filterMap id
      if lmp_values.length < 10 then none
      else some ⟨round2R (sampleMean lmp_values), round2R (sampleStd lmp_values),
        lmp_values.length,
        "Rolling " ++ toString days ++ "-day average across trading hubs"⟩

/-- `math.erf`: the Gauss error function, 2/√π · ∫₀ˣ e^(−t²) dt. -/
noncomputable def erf (x : ℝ) : ℝ :=
  2 / Real.sqrt Real.pi * ∫ t in (0 : ℝ)..x, Real.exp (-(t ^ 2))

/-- `_sigma_to_percentile`: `int(round(50 * (1 + erf(sigma / sqrt(2)))))`. -/
noncomputable def sigma_to_percentile (sigma : ℝ) : ℤ :=
  roundHE (50 * (1 + erf (sigma / Real.sqrt 2)))

/-- Python float repr of a one-decimal value (`abs_sigma` in the verdict
templates): integer part, dot, one digit. -/
def fmtSigma (q : ℚ) : String :=
  let n := roundHE (q * 10)
  (if n < 0 then "-" else "") ++ toString (n.natAbs / 10) ++ "." ++ toString (n.natAbs % 10)

/-- The `analysis` sub-dict of `analyze_price`. -/
structure Analysis : Type where
  is_unusual : Bool
  severity : String
  sigma : ℚ
  percentile : ℤ

/-- The `baselines` sub-dict: hourly always present, rolling attached only
when truthy (a successfully computed dict). -/
structure BaselinesOut : Type where
  hour_of_day : HourlyBaseline
  rolling_7d : Option RollingBaseline

/-- The full `analyze_price` result dict. -/
structure AnomalyResult : Type where
  current_price : ℚ
  unit : String
  analysis : Analysis
  baselines : BaselinesOut
  verdict : String

/-- `analyze_price(iso, current_price)`.  The wall-clock hour (from
`pd.Timestamp.now(tz="US/Pacific")`) and the outcome of the
`compute_rolling_baseline` call (network I/O) are explicit parameters. -/
noncomputable def analyze_price (hour : ℕ) (rolling : Option RollingBaseline)
    (iso : String) (current_price : ℚ) : AnomalyResult :=
  let hourly := get_hourly_baseline iso hour
  let mean := hourly.mean
  let std := hourly.std
  let sigma : ℚ := if std = 0 then 0 else round1 ((current_price - mean) / std)
  let percentile := sigma_to_percentile (sigma : ℝ)
  let abs_sigma := |sigma|
  let sev : String × Bool :=
    if abs_sigma < 1 then ("normal", false)
    else if abs_sigma < 2 then ("mild", false)
    else if abs_sigma < 3 then ("moderate", true)
    else ("extreme", true)
  let direction := if 0 < sigma then "above" else "below"
  let verdict :=
    if sev.2 = false then
      "Price of $" ++ fmt2 current_price ++ "/MWh is within normal range — " ++
        fmtSigma abs_sigma ++ "σ " ++ direction ++ " typical for this hour (" ++
        fmt0 mean ++ " ± " ++ fmt0 std ++ ")."
    else
      "Price of $" ++ fmt2 current_price ++ "/MWh is elevated at " ++
        fmtSigma abs_sigma ++ "σ " ++ direction ++ " typical for hour " ++
        toString hour ++ ":00 (baseline: $" ++ fmt0 mean ++ "/MWh). " ++
        "Likely driven by specific grid conditions."
  { current_price := current_price
    unit := "$/MWh"
    analysis := ⟨sev.2, sev.1, sigma, percentile⟩
    baselines := ⟨hourly, rolling⟩
    verdict := verdict }

/-! ### Helper lemmas -/

theorem floor_le_roundHE {K : Type} [LinearOrderedField K] [FloorRing K]
    (x : K) : ⌊x⌋ ≤ roundHE x := by
  unfold roundHE; split_ifs <;> omega

theorem roundHE_le_floor_add_one {K : Type} [LinearOrderedField K] [FloorRing K]
    (x : K) : roundHE x ≤ ⌊x⌋ + 1 := by
  unfold roundHE; split_ifs <;> omega

theorem roundHE_mono {K : Type} [LinearOrderedField K] [FloorRing K]
    {x y : K} (h : x ≤ y) : roundHE x ≤ roundHE y := by
  rcases lt_or_le ⌊x⌋ ⌊y⌋ with hf | hf
  · have h1 := roundHE_le_floor_add_one x
    have h2 := floor_le_roundHE y
    omega
  · have hfe : ⌊x⌋ = ⌊y⌋ := le_antisymm (Int.floor_mono h) hf
    have hfr : Int.fract x ≤ Int.fract y := by
      unfold Int.fract
      rw [hfe]
      linarith
    unfold roundHE
    rw [hfe]
    split_ifs <;> first | omega | linarith

theorem roundHE_intCast {K : Type} [LinearOrderedField K] [FloorRing K]
    (n : ℤ) : roundHE (n : K) = n := by
  unfold roundHE
  rw [Int.fract_intCast, Int.floor_intCast]
  norm_num

theorem round1_mono {p q : ℚ} (h : p ≤ q) : round1 p ≤ round1 q := by
  unfold round1
  have : roundHE (p * 10) ≤ roundHE (q * 10) :=
    roundHE_mono (by nlinarith)
  have hc : ((roundHE (p * 10) : ℤ) : ℚ) ≤ ((roundHE (q * 10) : ℤ) : ℚ) :=
    Int.cast_le.mpr this
  linarith

theorem erf_mono {x y : ℝ} (h : x ≤ y) : erf x ≤ erf y := by
  unfold erf
  have hc : Continuous fun t : ℝ => Real.exp (-(t ^ 2)) := by
    fun_prop
  have h1 : IntervalIntegrable (fun t : ℝ => Real.exp (-(t ^ 2)))
      MeasureTheory.volume 0 x := hc.intervalIntegrable 0 x
  have h2 : IntervalIntegrable (fun t : ℝ => Real.exp (-(t ^ 2)))
      MeasureTheory.volume x y := hc.intervalIntegrable x y
  have hadd := intervalIntegral.integral_add_adjacent_intervals h1 h2
  have hnn : 0 ≤ ∫ t in x..y, Real.exp (-(t ^ 2)) :=
    intervalIntegral.integral_nonneg h (fun u _ => (Real.exp_pos _).le)
  have hcoef : 0 ≤ 2 / Real.sqrt Real.pi := by positivity
  have hint : (∫ t in (0 : ℝ)..x, Real.exp (-(t ^ 2))) ≤
      ∫ t in (0 : ℝ)..y, Real.exp (-(t ^ 2)) := by
    rw [← hadd]
    linarith
  exact mul_le_mul_of_nonneg_left hint hcoef

theorem erf_zero : erf 0 = 0 := by
  unfold erf
  rw [intervalIntegral.integral_same, mul_zero]

theorem sigma_to_percentile_zero : sigma_to_percentile 0 = 50 := by
  unfold sigma_to_percentile
  rw [zero_div, erf_zero]
  norm_num
  rw [show (50 : ℝ) = ((50 : ℤ) : ℝ) by norm_num, roundHE_intCast]

theorem sigma_to_percentile_mono {s t : ℝ} (h : s ≤ t) :
    sigma_to_percentile s ≤ sigma_to_percentile t := by
  unfold sigma_to_percentile
  apply roundHE_mono
  have hsq : (0 : ℝ) < Real.sqrt 2 := Real.sqrt_pos.mpr (by norm_num)
  have hdiv : s / Real.sqrt 2 ≤ t / Real.sqrt 2 := by
    exact div_le_div_of_nonneg_right h hsq.le
  have := erf_mono hdiv
  linarith

theorem hourly_std_pos (iso : String) (hour : ℕ) :
    0 < (get_hourly_baseline iso hour).std := by
  unfold get_hourly_baseline
  split_ifs
  · rcases hfind : CAISO_HOURLY_BASELINES.find? (fun e => e.1 == hour) with _ | e
    · simp [hfind]
    · have hmem := List.mem_of_find?_eq_some hfind
      have hall : ∀ x ∈ CAISO_HOURLY_BASELINES, (0 : ℚ) < x.2.2 := by
        intro x hx
        fin_cases hx <;> norm_num
      simp only [hfind, Option.map_some, Option.getD_some]
      exact hall e hmem
  · norm_num

/-! ### Claim theorems -/

/-- C1: for every key holding an entry, a `TTLCache.get` strictly before
`expires_at` returns the stored value (and leaves the store unchanged),
while a `get` at or past `expires_at` returns absent and deletes the
entry — so a cached value is never returned at or past its expiry. -/
theorem ttl_cache_expiry_semantics {V : Type} (s : TTLStore V) (key : String)
    (expires_at : ℚ) (v : V) (now : ℚ)
    (hkey : s key = some (expires_at, v)) :
    (now < expires_at → cacheGet s now key = (some v, s)) ∧
    (expires_at ≤ now →
      cacheGet s now key = (none, fun k => if k = key then none else s k)) := by
  constructor
  · intro h
    simp only [cacheGet, hkey]
    rw [if_pos h]
  · intro h
    simp only [cacheGet, hkey]
    rw [if_neg (not_lt.mpr h)]

/-- Witness for C1 at a concrete store: a value with expiry 10 is returned
at time 5 and evicted at time 10. -/
theorem ttl_cache_expiry_semantics_witness :
    cacheGet (fun k => if k = "cache_key" then some ((10 : ℚ), (7 : ℕ)) else none)
      5 "cache_key" =
      (some 7, fun k => if k = "cache_key" then some ((10 : ℚ), (7 : ℕ)) else none) ∧
    cacheGet (fun k => if k = "cache_key" then some ((10 : ℚ), (7 : ℕ)) else none)
      10 "cache_key" =
      (none, fun k => if k = "cache_key" then none
        else if k = "cache_key" then some ((10 : ℚ), (7 : ℕ)) else none) := by
  constructor
  · exact (ttl_cache_expiry_semantics _ "cache_key" 10 7 5 (by simp)).1 (by norm_num)
  · exact (ttl_cache_expiry_semantics _ "cache_key" 10 7 10 (by simp)).2 (by norm_num)

/-- C10: on a cache miss, a `get_status` whose provider call raises caches
the degraded placeholder with the same 60-second TTL as a success, so any
later `get_status` for the same ISO strictly within those 60 seconds
returns the placeholder without consulting the provider, whatever the
provider would now answer. -/
theorem status_failure_cached_sixty_seconds (s s1 : TTLStore StatusSnapshot)
    (now t : ℚ) (provider2 : Option StatusRaw)
    (hmiss : cacheGet s now "status:CAISO" = (none, s1))
    (ht : t < now + 60) :
    get_status s now "CAISO" none =
      .ok (statusPlaceholder, true,
        cacheSet s1 now "status:CAISO" statusPlaceholder 60) ∧
    cacheSet s1 now "status:CAISO" statusPlaceholder 60 "status:CAISO" =
      some (now + 60, statusPlaceholder) ∧
    get_status (cacheSet s1 now "status:CAISO" statusPlaceholder 60) t "CAISO"
        provider2 =
      .ok (statusPlaceholder, false,
        cacheSet s1 now "status:CAISO" statusPlaceholder 60) := by
  have hkey : ("status:" ++ "CAISO" : String) = "status:CAISO" := rfl
  have hsup : isoSupported "CAISO" = true := rfl
  refine ⟨?_, ?_, ?_⟩
  · simp only [get_status, hkey, hmiss, hsup, if_true]
  · simp [cacheSet]
  · have hhit : cacheGet (cacheSet s1 now "status:CAISO" statusPlaceholder 60) t
        "status:CAISO" =
        (some statusPlaceholder, cacheSet s1 now "status:CAISO" statusPlaceholder 60) := by
      simp [cacheGet, cacheSet, ht]
    simp only [get_status, hkey, hhit]

/-- Witness for C10: first failing call at time 0 on an empty cache, second
call at time 59 with a recovered provider still serves the placeholder. -/
theorem status_failure_cached_sixty_seconds_witness :
    get_status (cacheSet (emptyStore StatusSnapshot) 0 "status:CAISO"
        statusPlaceholder 60) 59 "CAISO" (some ⟨"normal", none, "2026-01-01"⟩) =
      .ok (statusPlaceholder, false,
        cacheSet (emptyStore StatusSnapshot) 0 "status:CAISO" statusPlaceholder 60) :=
  (status_failure_cached_sixty_seconds (emptyStore StatusSnapshot)
    (emptyStore StatusSnapshot) 0 59 (some ⟨"normal", none, "2026-01-01"⟩)
    rfl (by norm_num)).2.2

/-- C2 counterexample: on a cache miss with an empty provider table,
`get_prices` does not fail with `DataUnavailable`; it returns the
placeholder snapshot (`timestamp = None`, `average_lmp = 0.0`, empty
`by_hub`) and caches it for 60 seconds. -/
theorem prices_empty_result_is_cached_placeholder :
    get_prices (emptyStore PriceSnapshot) 0 "CAISO" [] =
      .ok (⟨none, 0, [], "$/MWh"⟩,
        cacheSet (emptyStore PriceSnapshot) 0 "prices:CAISO" ⟨none, 0, [], "$/MWh"⟩ 60) ∧
    cacheSet (emptyStore PriceSnapshot) 0 "prices:CAISO" ⟨none, 0, [], "$/MWh"⟩ 60
      "prices:CAISO" = some (60, ⟨none, 0, [], "$/MWh"⟩) := by
  constructor
  · rfl
  · simp [cacheSet, emptyStore]

/-- C2 amended: on a cache miss with a supported ISO, an empty provider
result makes `get_fuel_mix` and `get_load` fail with `DataUnavailable`,
while `get_prices` instead returns the placeholder snapshot with
`average_lmp = 0.0` and caches it. -/
theorem empty_result_behavior (sf : TTLStore FuelMix) (sl : TTLStore LoadSnapshot)
    (sp : TTLStore PriceSnapshot) (now : ℚ) (iso : String)
    (hiso : isoSupported iso = true)
    (hf : (cacheGet sf now ("fuel_mix:" ++ iso)).1 = none)
    (hl : (cacheGet sl now ("load:" ++ iso)).1 = none)
    (hp : (cacheGet sp now ("prices:" ++ iso)).1 = none) :
    get_fuel_mix sf now iso [] =
      .error (.dataUnavailable ("No fuel mix data returned from " ++ iso)) ∧
    get_load sl now iso [] =
      .error (.dataUnavailable ("No load data returned from " ++ iso)) ∧
    ∃ s2, get_prices sp now iso [] = .ok (⟨none, 0, [], "$/MWh"⟩, s2) ∧
      s2 ("prices:" ++ iso) = some (now + 60, ⟨none, 0, [], "$/MWh"⟩) := by
  refine ⟨?_, ?_, ?_⟩
  · rcases hc : cacheGet sf now ("fuel_mix:" ++ iso) with ⟨o, s1⟩
    rw [hc] at hf
    simp only at hf
    subst hf
    simp only [get_fuel_mix, hc, hiso, if_true]
  · rcases hc : cacheGet sl now ("load:" ++ iso) with ⟨o, s1⟩
    rw [hc] at hl
    simp only at hl
    subst hl
    simp only [get_load, hc, hiso, if_true]
  · rcases hc : cacheGet sp now ("prices:" ++ iso) with ⟨o, s1⟩
    rw [hc] at hp
    simp only at hp
    subst hp
    refine ⟨cacheSet s1 now ("prices:" ++ iso) ⟨none, 0, [], "$/MWh"⟩ 60, ?_, ?_⟩
    · simp only [get_prices, hc, hiso, if_true]
      rfl
    · simp [cacheSet]

/-- Witness for C2 (amended) on empty caches at time 0 for `CAISO`. -/
theorem empty_result_behavior_witness :
    get_fuel_mix (emptyStore FuelMix) 0 "CAISO" [] =
      .error (.dataUnavailable ("No fuel mix data returned from " ++ "CAISO")) ∧
    get_load (emptyStore LoadSnapshot) 0 "CAISO" [] =
      .error (.dataUnavailable ("No load data returned from " ++ "CAISO")) ∧
    ∃ s2, get_prices (emptyStore PriceSnapshot) 0 "CAISO" [] =
        .ok (⟨none, 0, [], "$/MWh"⟩, s2) ∧
      s2 ("prices:" ++ "CAISO") = some ((0 : ℚ) + 60, ⟨none, 0, [], "$/MWh"⟩) :=
  empty_result_behavior (emptyStore FuelMix) (emptyStore LoadSnapshot)
    (emptyStore PriceSnapshot) 0 "CAISO" rfl rfl rfl rfl

/-- C6: whenever the strictly-positive source values sum to zero, the
highlight generator returns exactly `["Generation data unavailable"]`,
whatever the load and price snapshots are. -/
theorem highlights_zero_generation (fm : FuelMix) (load : LoadSnapshot)
    (prices : PriceSnapshot) (h : totalGen fm.sources = 0) :
    generate_highlights fm load prices = ["Generation data unavailable"] := by
  simp [generate_highlights, h]

/-- Witness for C6: only a charging battery (negative MW), arbitrary load
and an elevated price still yield the single unavailability highlight. -/
theorem highlights_zero_generation_witness :
    generate_highlights ⟨"2026-01-01", [("Batteries", -500)]⟩ ⟨"2026-01-01", 20000⟩
      ⟨some "2026-01-01", 95, [("HUB", 95)], "$/MWh"⟩ =
      ["Generation data unavailable"] :=
  highlights_zero_generation ⟨"2026-01-01", [("Batteries", -500)]⟩
    ⟨"2026-01-01", 20000⟩ ⟨some "2026-01-01", 95, [("HUB", 95)], "$/MWh"⟩
    (by decide)

/-- C8 counterexample: a mix with positive total generation and no wind at
all has wind share 0 % (< 5 %), yet no low-wind highlight is produced —
the code guards the wind rule with `wind > 0`. -/
theorem low_wind_zero_wind_counterexample :
    0 < totalGen (FuelMix.mk "t" [("Other", 100)]).sources ∧
    ((getSource (FuelMix.mk "t" [("Other", 100)]).sources "Wind" : ℚ) /
        (totalGen (FuelMix.mk "t" [("Other", 100)]).sources : ℚ) * 100) < 5 ∧
    lowWindMsg
        ((getSource (FuelMix.mk "t" [("Other", 100)]).sources "Wind" : ℚ) /
          (totalGen (FuelMix.mk "t" [("Other", 100)]).sources : ℚ) * 100)
        (getSource (FuelMix.mk "t" [("Other", 100)]).sources "Wind") ∉
      generate_highlights (FuelMix.mk "t" [("Other", 100)]) ⟨"t", 0⟩
        ⟨none, 50, [], "$/MWh"⟩ := by
  have h1 : getSource (FuelMix.mk "t" [("Other", 100)]).sources "Wind" = (0 : ℤ) := rfl
  have h2 : totalGen (FuelMix.mk "t" [("Other", 100)]).sources = (100 : ℤ) := rfl
  have h3 : ((0 : ℤ) : ℚ) / ((100 : ℤ) : ℚ) * 100 = 0 := by norm_num
  have hgen : generate_highlights (FuelMix.mk "t" [("Other", 100)]) ⟨"t", 0⟩
      ⟨none, 50, [], "$/MWh"⟩ = ["Grid operating within normal parameters"] := by
    have hprice : pricePart 50 = [] := by
      unfold pricePart
      rw [if_neg (by norm_num), if_neg (by norm_num)]
    simp only [generate_highlights]
    rw [if_neg (by decide)]
    rw [show solarPart (FuelMix.mk "t" [("Other", 100)]).sources
        (totalGen (FuelMix.mk "t" [("Other", 100)]).sources) = [] from rfl]
    rw [show batteryPart (FuelMix.mk "t" [("Other", 100)]).sources = [] from rfl]
    rw [show windPart (FuelMix.mk "t" [("Other", 100)]).sources
        (totalGen (FuelMix.mk "t" [("Other", 100)]).sources) = [] from rfl]
    rw [show gasPart (FuelMix.mk "t" [("Other", 100)]).sources
        (totalGen (FuelMix.mk "t" [("Other", 100)]).sources) = [] from rfl]
    rw [hprice]
    rfl
  refine ⟨by decide, ?_, ?_⟩
  · rw [h1, h2, h3]
    norm_num
  · rw [h1, h2, h3, hgen]
    have hmsg : lowWindMsg 0 0 = "Low wind generation at 0% (0 MW)" := by
      unfold lowWindMsg fmt0 fmtComma roundHE
      rw [Int.fract_zero, if_pos (by norm_num), Int.floor_zero]
      rfl
    rw [hmsg]
    decide

/-- C8 amended: with positive total generation, a strictly positive wind
value whose share is below 5 % yields the low-wind highlight, and a share
above 20 % yields the strong-wind highlight (a share above 20 % forces
`wind > 0`, so only the low-wind rule needs the positivity guard). -/
theorem wind_share_highlights (fm : FuelMix) (load : LoadSnapshot)
    (prices : PriceSnapshot) (htotal : 0 < totalGen fm.sources) :
    (0 < getSource fm.sources "Wind" →
      (getSource fm.sources "Wind" : ℚ) / (totalGen fm.sources : ℚ) * 100 < 5 →
      lowWindMsg
          ((getSource fm.sources "Wind" : ℚ) / (totalGen fm.sources : ℚ) * 100)
          (getSource fm.sources "Wind") ∈ generate_highlights fm load prices) ∧
    (20 < (getSource fm.sources "Wind" : ℚ) / (totalGen fm.sources : ℚ) * 100 →
      strongWindMsg
          ((getSource fm.sources "Wind" : ℚ) / (totalGen fm.sources : ℚ) * 100)
          (getSource fm.sources "Wind") ∈ generate_highlights fm load prices) := by
  have hne : totalGen fm.sources ≠ 0 := by omega
  constructor
  · intro hw hpct
    have hwp : windPart fm.sources (totalGen fm.sources) =
        [lowWindMsg ((getSource fm.sources "Wind" : ℚ) /
          (totalGen fm.sources : ℚ) * 100) (getSource fm.sources "Wind")] := by
      simp only [windPart]
      rw [if_pos ⟨hw, htotal⟩, if_pos hpct]
    have hmem : lowWindMsg ((getSource fm.sources "Wind" : ℚ) /
        (totalGen fm.sources : ℚ) * 100) (getSource fm.sources "Wind") ∈
        solarPart fm.sources (totalGen fm.sources) ++ batteryPart fm.sources ++
          windPart fm.sources (totalGen fm.sources) ++
          gasPart fm.sources (totalGen fm.sources) ++
          pricePart prices.average_lmp := by
      simp [hwp, List.mem_append]
    simp only [generate_highlights, if_neg hne]
    rw [if_neg]
    · exact hmem
    · simp only [List.isEmpty_iff]
      exact List.ne_nil_of_mem hmem
  · intro hpct
    have htq : (0 : ℚ) < (totalGen fm.sources : ℚ) := by exact_mod_cast htotal
    have hw : 0 < getSource fm.sources "Wind" := by
      by_contra hle
      push_neg at hle
      have hwq : (getSource fm.sources "Wind" : ℚ) ≤ 0 := by exact_mod_cast hle
      have : (getSource fm.sources "Wind" : ℚ) / (totalGen fm.sources : ℚ) * 100 ≤ 0 := by
        have := div_nonpos_of_nonpos_of_nonneg hwq htq.le
        nlinarith
      linarith
    have hnot5 : ¬ ((getSource fm.sources "Wind" : ℚ) /
        (totalGen fm.sources : ℚ) * 100 < 5) := by linarith
    have hwp : windPart fm.sources (totalGen fm.sources) =
        [strongWindMsg ((getSource fm.sources "Wind" : ℚ) /
          (totalGen fm.sources : ℚ) * 100) (getSource fm.sources "Wind")] := by
      simp only [windPart]
      rw [if_pos ⟨hw, htotal⟩, if_neg hnot5, if_pos hpct]
    have hmem : strongWindMsg ((getSource fm.sources "Wind" : ℚ) /
        (totalGen fm.sources : ℚ) * 100) (getSource fm.sources "Wind") ∈
        solarPart fm.sources (totalGen fm.sources) ++ batteryPart fm.sources ++
          windPart fm.sources (totalGen fm.sources) ++
          gasPart fm.sources (totalGen fm.sources) ++
          pricePart prices.average_lmp := by
      simp [hwp, List.mem_append]
    simp only [generate_highlights, if_neg hne]
    rw [if_neg]
    · exact hmem
    · simp only [List.isEmpty_iff]
      exact List.ne_nil_of_mem hmem

/-- Witness for C8 (amended): wind 30 MW of 1000 MW total is a 3 % share,
so the low-wind highlight fires. -/
theorem wind_share_highlights_witness :
    lowWindMsg
        ((getSource (FuelMix.mk "t" [("Wind", 30), ("Other", 970)]).sources "Wind" : ℚ) /
          (totalGen (FuelMix.mk "t" [("Wind", 30), ("Other", 970)]).sources : ℚ) * 100)
        (getSource (FuelMix.mk "t" [("Wind", 30), ("Other", 970)]).sources "Wind") ∈
      generate_highlights (FuelMix.mk "t" [("Wind", 30), ("Other", 970)]) ⟨"t", 0⟩
        ⟨none, 50, [], "$/MWh"⟩ :=
  (wind_share_highlights (FuelMix.mk "t" [("Wind", 30), ("Other", 970)]) ⟨"t", 0⟩
    ⟨none, 50, [], "$/MWh"⟩ (by decide)).1 (by decide)
    (by
      rw [show getSource (FuelMix.mk "t" [("Wind", 30), ("Other", 970)]).sources
          "Wind" = (30 : ℤ) from rfl,
        show totalGen (FuelMix.mk "t" [("Wind", 30), ("Other", 970)]).sources =
          (1000 : ℤ) from rfl]
      norm_num)

/-- C3: severity classification is exact on its boundaries — `normal` iff
`|sigma| < 1`, `mild` iff `1 ≤ |sigma| < 2`, `moderate` iff
`2 ≤ |sigma| < 3`, `extreme` iff `3 ≤ |sigma|` — and `is_unusual` holds
iff the severity is `moderate` or `extreme`. -/
theorem severity_boundaries (hour : ℕ) (rolling : Option RollingBaseline)
    (iso : String) (p : ℚ) :
    ((analyze_price hour rolling iso p).analysis.severity = "normal" ↔
      |(analyze_price hour rolling iso p).analysis.sigma| < 1) ∧
    ((analyze_price hour rolling iso p).analysis.severity = "mild" ↔
      1 ≤ |(analyze_price hour rolling iso p).analysis.sigma| ∧
        |(analyze_price hour rolling iso p).analysis.sigma| < 2) ∧
    ((analyze_price hour rolling iso p).analysis.severity = "moderate" ↔
      2 ≤ |(analyze_price hour rolling iso p).analysis.sigma| ∧
        |(analyze_price hour rolling iso p).analysis.sigma| < 3) ∧
    ((analyze_price hour rolling iso p).analysis.severity = "extreme" ↔
      3 ≤ |(analyze_price hour rolling iso p).analysis.sigma|) ∧
    ((analyze_price hour rolling iso p).analysis.is_unusual = true ↔
      ((analyze_price hour rolling iso p).analysis.severity = "moderate" ∨
        (analyze_price hour rolling iso p).analysis.severity = "extreme")) := by
  simp only [analyze_price]
  generalize (if (get_hourly_baseline iso hour).std = 0 then (0 : ℚ)
    else round1 ((p - (get_hourly_baseline iso hour).mean) /
      (get_hourly_baseline iso hour).std)) = sigma
  split_ifs with h1 h2 h3 <;>
    refine ⟨?_, ?_, ?_, ?_, ?_⟩ <;> simp <;>
    first
      | linarith
      | (constructor <;> linarith)
      | (intro hx; linarith)

/-- C4: sigma is `round((current_price - mean) / std, 1)` whenever the
hourly std is nonzero and `0.0` when the std is zero; moreover the std of
every hourly baseline is strictly positive, so the division branch never
runs with a zero divisor. -/
theorem sigma_zero_divisor_guard (hour : ℕ) (rolling : Option RollingBaseline)
    (iso : String) (p : ℚ) :
    ((get_hourly_baseline iso hour).std ≠ 0 →
      (analyze_price hour rolling iso p).analysis.sigma =
        round1 ((p - (get_hourly_baseline iso hour).mean) /
          (get_hourly_baseline iso hour).std)) ∧
    ((get_hourly_baseline iso hour).std = 0 →
      (analyze_price hour rolling iso p).analysis.sigma = 0) ∧
    0 < (get_hourly_baseline iso hour).std := by
  refine ⟨?_, ?_, hourly_std_pos iso hour⟩ <;> intro h <;> simp [analyze_price, h]

/-- Witness for C4 at hour 0 for CAISO, price 40: the hourly std 12.3 is
nonzero, so sigma is the rounded z-score. -/
theorem sigma_zero_divisor_guard_witness :
    (analyze_price 0 none "CAISO" 40).analysis.sigma =
      round1 ((40 - (get_hourly_baseline "CAISO" 0).mean) /
        (get_hourly_baseline "CAISO" 0).std) :=
  (sigma_zero_divisor_guard 0 none "CAISO" 40).1
    (by
      rw [show (get_hourly_baseline "CAISO" 0).std = (12.3 : ℚ) from rfl]
      norm_num)

/-- C5: sigma never decreases when the current price increases with the
baseline held fixed, the percentile is non-decreasing in sigma, and sigma
zero maps to the 50th percentile. -/
theorem score_monotonicity (hour : ℕ) (rolling : Option RollingBaseline)
    (iso : String) (p q : ℚ) (s t : ℝ) (hpq : p ≤ q) (hst : s ≤ t) :
    (analyze_price hour rolling iso p).analysis.sigma ≤
      (analyze_price hour rolling iso q).analysis.sigma ∧
    sigma_to_percentile s ≤ sigma_to_percentile t ∧
    sigma_to_percentile 0 = 50 := by
  refine ⟨?_, sigma_to_percentile_mono hst, sigma_to_percentile_zero⟩
  have hstd := hourly_std_pos iso hour
  have hne : (get_hourly_baseline iso hour).std ≠ 0 := ne_of_gt hstd
  simp only [analyze_price]
  rw [if_neg hne, if_neg hne]
  apply round1_mono
  exact div_le_div_of_nonneg_right (by linarith) hstd.le

/-- Witness for C5: evening-peak baseline, prices 30 ≤ 60, sigmas 0 ≤ 1. -/
theorem score_monotonicity_witness :
    (analyze_price 18 none "CAISO" 30).analysis.sigma ≤
      (analyze_price 18 none "CAISO" 60).analysis.sigma ∧
    sigma_to_percentile 0 ≤ sigma_to_percentile 1 ∧
    sigma_to_percentile 0 = 50 :=
  score_monotonicity 18 none "CAISO" 30 60 0 1 (by norm_num) (by norm_num)

/-- C9: the rolling baseline is advisory only — every analysis field
(`is_unusual`, `severity`, `sigma`, `percentile`) is the same whatever
`compute_rolling_baseline` produced, and the `rolling_7d` entry of the
result is exactly that outcome (present iff the computation succeeded). -/
theorem rolling_baseline_advisory (hour : ℕ) (iso : String) (p : ℚ)
    (r1 r2 : Option RollingBaseline) :
    (analyze_price hour r1 iso p).analysis = (analyze_price hour r2 iso p).analysis ∧
    (analyze_price hour r1 iso p).baselines.rolling_7d = r1 :=
  ⟨rfl, rfl⟩

/-- C7: the rolling baseline is absent exactly when the frame is missing
or has fewer than 10 valid samples, and with at least 10 valid samples it
is the 2-decimal-rounded sample mean and sample standard deviation plus
the sample count. -/
theorem rolling_baseline_sample_floor (days : ℕ) (df : Option (List (Option ℝ))) :
    (compute_rolling_baseline days df = none ↔
      (df = none ∨ ((df.getD []).filterMap id).length < 10)) ∧
    (∀ rows, df = some rows → 10 ≤ (rows.filterMap id).length →
      compute_rolling_baseline days df =
        some ⟨round2R (sampleMean (rows.filterMap id)),
          round2R (sampleStd (rows.filterMap id)),
          (rows.filterMap id).length,
          "Rolling " ++ toString days ++ "-day average across trading hubs"⟩) := by
  constructor
  · cases df with
    | none => simp [compute_rolling_baseline]
    | some rows =>
      simp only [compute_rolling_baseline, Option.getD_some]
      by_cases hemp : rows.isEmpty
      · have hnil : rows = [] := List.isEmpty_iff.mp hemp
        subst hnil
        simp
      · rw [if_neg hemp]
        by_cases hlen : (rows.filterMap id).length < 10
        · simp [hlen]
        · simp [hlen]
  · intro rows hdf hlen
    subst hdf
    have hne : rows ≠ [] := by
      intro hnil
      subst hnil
      simp at hlen
    simp only [compute_rolling_baseline]
    rw [if_neg (by simpa [List.isEmpty_iff] using hne), if_neg (not_lt.mpr hlen)]

/-- Witness for C7: ten valid samples of 20 $/MWh clear the floor and
yield the rounded mean/std with count 10. -/
theorem rolling_baseline_sample_floor_witness :
    compute_rolling_baseline 7 (some (List.replicate 10 (some (20 : ℝ)))) =
      some ⟨round2R (sampleMean ((List.replicate 10 (some (20 : ℝ))).filterMap id)),
        round2R (sampleStd ((List.replicate 10 (some (20 : ℝ))).filterMap id)),
        ((List.replicate 10 (some (20 : ℝ))).filterMap id).length,
        "Rolling " ++ toString 7 ++ "-day average across trading hubs"⟩ :=
  (rolling_baseline_sample_floor 7 (some (List.replicate 10 (some (20 : ℝ))))).2
    (List.replicate 10 (some (20 : ℝ))) rfl
    (by
      rw [show ((List.replicate 10 (some (20 : ℝ))).filterMap id).length = 10 from rfl])

end GridStatus
